import Mathlib

/-!
Verification of the food-waste dashboard's query/reporting core
(`src/task4/app.py`, `src/task4/init_db.py`).

Modelling conventions (shallow embedding of the SQLite queries):
* Each table row becomes a structure; nullable SQL columns become `Option`.
* ISO-8601 date strings are modelled by their day number (`Option Int`):
  SQLite's `date(...)` normalisation and lexical comparison of well-formed
  ISO dates are order-isomorphic to integer day comparison, and
  `date('now')` / `date('now', '+k day')` become `today` / `today + k`.
  A NULL or unparsable `expiry_date` is `none`; in SQLite a comparison with
  NULL yields NULL, so such a row never satisfies a `WHERE` comparison.
* `ORDER BY` is modelled with `List.insertionSort` (a stable sort, as
  SQLite's sorter is on these single-key orderings).
* SQL `LOWER` is modelled by `sqlLower`, which lowercases the ASCII
  letters A-Z exactly as SQLite's `LOWER` does.
* SQL division `x / 0` yields NULL in SQLite, never an error; this is
  `sqlDiv`, returning `Option ℚ`.
-/

/-- Row of table `providers` (init_db.py lines 24-33). -/
structure Provider where
  provider_id : Nat
  name : String
  type : String
  address : String
  city : String
  contact : String
deriving DecidableEq

/-- Row of table `receivers` (init_db.py lines 35-43). -/
structure Receiver where
  receiver_id : Nat
  name : String
  type : String
  city : String
  contact : String
deriving DecidableEq

/-- Row of table `food_listings` (init_db.py lines 45-58).
`provider_id` is a nullable foreign key (ON DELETE SET NULL). -/
structure FoodListing where
  food_id : Nat
  food_name : String
  quantity : Int
  expiry_date : Option Int
  provider_id : Option Nat
  provider_type : Option String
  location : Option String
  food_type : Option String
  meal_type : Option String
deriving DecidableEq

/-- Row of table `claims` (init_db.py lines 60-70).
`food_id` references `food_listings` ON DELETE CASCADE;
`receiver_id` references `receivers` ON DELETE SET NULL. -/
structure Claim where
  claim_id : Nat
  food_id : Option Nat
  receiver_id : Option Nat
  status : Option String
  timestamp : String
deriving DecidableEq

/-- The database state: the four tables. -/
structure DB where
  providers : List Provider
  receivers : List Receiver
  food_listings : List FoodListing
  claims : List Claim
deriving DecidableEq

/-- SQLite's `LOWER` lowercases exactly the ASCII letters A-Z. -/
def asciiLowerChar (c : Char) : Char :=
  if 'A' ≤ c ∧ c ≤ 'Z' then Char.ofNat (c.toNat + 32) else c

/-- SQLite's `LOWER` on a text value. -/
def sqlLower (s : String) : String :=
  String.mk (s.data.map asciiLowerChar)

/-- SQL `LOWER` on a nullable text value: `LOWER(NULL) = NULL`. -/
def lowerOpt : Option String → Option String
  | none => none
  | some s => some (sqlLower s)

/-- SQL comparison `date(e) <= d` for a nullable date `e`:
NULL compares to nothing (the row is filtered out). -/
def dateLE (e : Option Int) (d : Int) : Bool :=
  match e with
  | none => false
  | some x => decide (x ≤ d)

/-- SQL division producing NULL on a zero divisor (SQLite semantics). -/
def sqlDiv (a b : ℚ) : Option ℚ :=
  if b = 0 then none else some (a / b)

/-- Ascending order on nullable dates as SQLite's `ORDER BY ... ASC`
sorts them: NULL first, then by value. -/
def optDateAscLE (a b : Option Int) : Prop :=
  match a, b with
  | none, _ => True
  | some _, none => False
  | some x, some y => x ≤ y

instance : DecidableRel optDateAscLE := fun a b =>
  match a, b with
  | none, _ => inferInstanceAs (Decidable True)
  | some _, none => inferInstanceAs (Decidable False)
  | some x, some y => inferInstanceAs (Decidable (x ≤ y))

instance : IsTotal (Option Int) optDateAscLE :=
  ⟨fun a b => by cases a <;> cases b <;> simp [optDateAscLE] <;> omega⟩

instance : IsTrans (Option Int) optDateAscLE :=
  ⟨fun a b c => by cases a <;> cases b <;> cases c <;> simp [optDateAscLE] <;> omega⟩

/-- `ORDER BY expiry_date ASC` on food listings. -/
def flExpLE (x y : FoodListing) : Prop :=
  optDateAscLE x.expiry_date y.expiry_date

instance : DecidableRel flExpLE := fun x y =>
  inferInstanceAs (Decidable (optDateAscLE x.expiry_date y.expiry_date))

instance : IsTotal FoodListing flExpLE :=
  ⟨fun a b => total_of optDateAscLE a.expiry_date b.expiry_date⟩

instance : IsTrans FoodListing flExpLE :=
  ⟨fun a b c hab hbc => trans_of optDateAscLE hab hbc⟩

/-- Alert rule 1's `WHERE` clause (app.py line 527):
`date(expiry_date) <= date('now', '+3 day')`. -/
def alertExpiringPred (today : Int) (fl : FoodListing) : Bool :=
  dateLE fl.expiry_date (today + 3)

/-- Alert rule 1, "Expiring food in next 3 days" (app.py lines 524-529):
the selected listings, ordered ascending by expiry date.  (The SQL projects
four columns of each selected row; we keep whole rows and project when a
claim needs the projection.) -/
def expiring_food (db : DB) (today : Int) : List FoodListing :=
  List.insertionSort flExpLE (db.food_listings.filter (alertExpiringPred today))

/-- Alert rule 1 is reported active exactly when its row set is non-empty
(app.py lines 530-534). -/
def expiringRuleActive (db : DB) (today : Int) : Bool :=
  !(expiring_food db today).isEmpty

/-- The report "Expiring Soon Food"'s `WHERE` clause (app.py line 654):
`date(expiry_date) <= date('now', '+3 day')` — written separately from
`alertExpiringPred` because it comes from a separate source line. -/
def reportExpiringPred (today : Int) (fl : FoodListing) : Bool :=
  dateLE fl.expiry_date (today + 3)

/-- Report "Expiring Soon Food" (app.py line 654):
`SELECT * FROM food_listings WHERE date(expiry_date) <= date('now','+3 day')
ORDER BY expiry_date`. -/
def expiringSoonFoodReport (db : DB) (today : Int) : List FoodListing :=
  List.insertionSort flExpLE (db.food_listings.filter (reportExpiringPred today))

/-- The Insights "Expiry Risk Analysis" `WHERE` clause (app.py line 625):
`date(expiry_date) <= date('now', '+5 day')`. -/
def expiryRiskPred (today : Int) (fl : FoodListing) : Bool :=
  dateLE fl.expiry_date (today + 5)

/-- The listings selected by the Insights "Expiry Risk Analysis" view
(app.py lines 622-627) before its `GROUP BY location` rollup. -/
def expiryRiskSelected (db : DB) (today : Int) : List FoodListing :=
  db.food_listings.filter (expiryRiskPred today)

/-- The four-column projection the alert query emits per selected listing
(app.py line 525): `SELECT food_name, quantity, expiry_date, location`. -/
def alertExpiringProj (fl : FoodListing) :
    String × Int × Option Int × Option String :=
  (fl.food_name, fl.quantity, fl.expiry_date, fl.location)

/-- Multiselect state of the Explore tab (app.py lines 181-184): the
selected values per category; an empty list means nothing selected. -/
structure Selections where
  cities : List String
  provider_types : List String
  food_types : List String
  meal_types : List String
deriving DecidableEq

/-- SQL `col IN (v1, ..., vn)` on a nullable text column: NULL is in no
list (the comparison yields NULL and the row is dropped). -/
def inValues (v : Option String) (vals : List String) : Bool :=
  match v with
  | none => false
  | some s => vals.contains s

/-- The dynamically built `WHERE` clause of the Explore tab (app.py lines
186-200): starts from `1=1` and appends `AND col IN (...)` for each
category with at least one selected value. -/
def exploreWhere (s : Selections) (fl : FoodListing) : Bool :=
  true
    && (if s.cities.isEmpty then true else inValues fl.location s.cities)
    && (if s.provider_types.isEmpty then true else inValues fl.provider_type s.provider_types)
    && (if s.food_types.isEmpty then true else inValues fl.food_type s.food_types)
    && (if s.meal_types.isEmpty then true else inValues fl.meal_type s.meal_types)

/-- The Explore tab's filter query result (app.py line 202):
`SELECT * FROM food_listings WHERE <built clause>` (no ORDER BY). -/
def exploreFiltered (db : DB) (s : Selections) : List FoodListing :=
  db.food_listings.filter (exploreWhere s)

/-- A selection map with nothing selected in any category. -/
def emptySelections : Selections :=
  ⟨[], [], [], []⟩

/-- A selection map choosing exactly one city and nothing else. -/
def citySelection (x : String) : Selections :=
  ⟨[x], [], [], []⟩

/-- Order rows of a `(key, cnt)` aggregation by `ORDER BY cnt DESC`. -/
def cntDescGE (x y : Option String × Nat) : Prop :=
  y.2 ≤ x.2

instance : DecidableRel cntDescGE := fun x y =>
  inferInstanceAs (Decidable (y.2 ≤ x.2))

instance : IsTotal (Option String × Nat) cntDescGE :=
  ⟨fun a b => Nat.le_total b.2 a.2⟩

instance : IsTrans (Option String × Nat) cntDescGE :=
  ⟨fun _ _ _ hab hbc => Nat.le_trans hbc hab⟩

/-- Catalog query "Claims status distribution" (app.py lines 318-323):
`SELECT LOWER(status) AS status, COUNT(*) AS cnt FROM claims
GROUP BY LOWER(status) ORDER BY cnt DESC`. -/
def claimsStatusDistribution (db : DB) : List (Option String × Nat) :=
  List.insertionSort cntDescGE
    (((db.claims.map (fun c => lowerOpt c.status)).dedup).map
      (fun s => (s, (db.claims.filter (fun c => lowerOpt c.status = s)).length)))

/-- Catalog query "Claim completion percentage" (app.py lines 324-329):
`SELECT status, COUNT(*) * 100.0 / (SELECT COUNT(*) FROM claims) AS
percentage FROM claims GROUP BY status` — note it groups by the RAW
`status`, not `LOWER(status)`, and has no ORDER BY. -/
def claimCompletionPercentage (db : DB) : List (Option String × ℚ) :=
  ((db.claims.map (fun c => c.status)).dedup).map
    (fun s => (s, ((db.claims.filter (fun c => c.status = s)).length : ℚ) * 100
                    / (db.claims.length : ℚ)))

/-- One output row of alert rule 3 (app.py line 551):
`SELECT c.claim_id, r.name AS receiver, f.food_name, c.status, c.timestamp`. -/
structure PendingRow where
  claim_id : Nat
  receiver : String
  food_name : String
  status : Option String
  timestamp : String
deriving DecidableEq

/-- `ORDER BY c.timestamp ASC` on pending-claim rows (ISO timestamps
compare lexically, which is chronological). -/
def pendingTsLE (x y : PendingRow) : Prop :=
  x.timestamp ≤ y.timestamp

instance : DecidableRel pendingTsLE := fun x y =>
  inferInstanceAs (Decidable (x.timestamp ≤ y.timestamp))

instance : IsTotal PendingRow pendingTsLE :=
  ⟨fun a b => le_total a.timestamp b.timestamp⟩

instance : IsTrans PendingRow pendingTsLE :=
  ⟨fun _ _ _ hab hbc => le_trans hab hbc⟩

/-- The rows of alert rule 3 contributed by one claim: the inner joins
`JOIN receivers r ON c.receiver_id = r.receiver_id` and
`JOIN food_listings f ON c.food_id = f.food_id`, under the filter
`LOWER(c.status) = 'pending'` (app.py lines 550-556). -/
def pendingRowsOfClaim (db : DB) (c : Claim) : List PendingRow :=
  db.receivers.flatMap (fun r =>
    db.food_listings.filterMap (fun f =>
      if c.receiver_id = some r.receiver_id ∧ c.food_id = some f.food_id ∧
          lowerOpt c.status = some "pending"
      then some ⟨c.claim_id, r.name, f.food_name, c.status, c.timestamp⟩
      else none))

/-- Alert rule 3, "Pending claims" (app.py lines 550-557): the joined,
filtered rows ordered ascending by claim timestamp. -/
def pending_claims (db : DB) : List PendingRow :=
  List.insertionSort pendingTsLE (db.claims.flatMap (pendingRowsOfClaim db))

/-- Alert rule 3 is reported active exactly when its row set is non-empty
(app.py lines 558-562). -/
def pendingRuleActive (db : DB) : Bool :=
  !(pending_claims db).isEmpty

/-- Descending order on nullable rationals as SQLite's `ORDER BY ... DESC`
sorts them: NULL is smaller than every value, so DESC puts NULL last. -/
def optRatDescGE (a b : Option ℚ) : Prop :=
  match a, b with
  | some x, some y => y ≤ x
  | some _, none => True
  | none, some _ => False
  | none, none => True

instance : DecidableRel optRatDescGE := fun a b =>
  match a, b with
  | some x, some y => inferInstanceAs (Decidable (y ≤ x))
  | some _, none => inferInstanceAs (Decidable True)
  | none, some _ => inferInstanceAs (Decidable False)
  | none, none => inferInstanceAs (Decidable True)

instance : IsTotal (Option ℚ) optRatDescGE :=
  ⟨fun a b => by
    cases a <;> cases b <;> simp [optRatDescGE]
    exact le_total _ _⟩

instance : IsTrans (Option ℚ) optRatDescGE :=
  ⟨fun a b c hab hbc => by
    cases a <;> cases b <;> cases c <;> simp_all [optRatDescGE]
    exact le_trans hbc hab⟩

/-- `ORDER BY claim_to_listing_ratio DESC` on the ratio query's rows. -/
def ratioRowGE (x y : String × Option ℚ) : Prop :=
  optRatDescGE x.2 y.2

instance : DecidableRel ratioRowGE := fun x y =>
  inferInstanceAs (Decidable (optRatDescGE x.2 y.2))

instance : IsTotal (String × Option ℚ) ratioRowGE :=
  ⟨fun a b => total_of optRatDescGE a.2 b.2⟩

instance : IsTrans (String × Option ℚ) ratioRowGE :=
  ⟨fun _ _ _ hab hbc => trans_of optRatDescGE hab hbc⟩

/-- The group of listings contributing to one name group of the ratio
query's `LEFT JOIN food_listings fl ON p.provider_id = fl.provider_id`
(app.py line 368): listings whose `provider_id` matches a provider named
`nm`. -/
def ratioGroupListings (db : DB) (nm : String) : List FoodListing :=
  db.food_listings.filter
    (fun fl => decide (∃ p ∈ db.providers, p.name = nm ∧ fl.provider_id = some p.provider_id))

/-- `COUNT(DISTINCT fl.food_id)` of one name group (app.py line 366). -/
def ratioGroupFoodIds (db : DB) (nm : String) : List Nat :=
  ((ratioGroupListings db nm).map (fun fl => fl.food_id)).dedup

/-- `COUNT(DISTINCT c.claim_id)` of one name group (app.py line 366): the
claims joined in by `LEFT JOIN claims c ON fl.food_id = c.food_id`. -/
def ratioGroupClaimIds (db : DB) (nm : String) : List Nat :=
  ((db.claims.filter
      (fun c => decide (∃ fl ∈ ratioGroupListings db nm, c.food_id = some fl.food_id))).map
    (fun c => c.claim_id)).dedup

/-- Catalog query "Claim to listing ratio by provider" (app.py lines
364-372): `SELECT p.name, COUNT(DISTINCT c.claim_id)*1.0 /
COUNT(DISTINCT fl.food_id) AS claim_to_listing_ratio FROM providers p
LEFT JOIN food_listings fl ... LEFT JOIN claims c ... GROUP BY p.name
ORDER BY claim_to_listing_ratio DESC`. -/
def claimToListingRatioByProvider (db : DB) : List (String × Option ℚ) :=
  List.insertionSort ratioRowGE
    (((db.providers.map (fun p => p.name)).dedup).map (fun nm =>
      (nm, sqlDiv ((ratioGroupClaimIds db nm).length : ℚ)
                  ((ratioGroupFoodIds db nm).length : ℚ))))

/-- The keys of the query catalog `queries` dict, in source order
(app.py lines 208-380); `q_choice` is drawn from exactly this list
(app.py line 382). -/
def queriesNames : List String :=
  [ "Providers per city",
    "Top 5 cities by number of providers",
    "Receivers per city",
    "Top 5 cities by number of receivers",
    "Average donations per provider",
    "Average claims per receiver",
    "Provider type contribution (by total quantity)",
    "Most donated food items",
    "Expired food listings",
    "Food listings expiring in next 7 days",
    "Top receivers by number of claims",
    "Receivers with most completed claims",
    "Food items with most cancelled claims",
    "Claims per food item",
    "Provider with highest completed claims",
    "Claims status distribution",
    "Claim completion percentage",
    "Avg quantity per receiver (approx)",
    "Top 5 receivers by quantity claimed",
    "Most-claimed meal type",
    "Average time between listing and claim",
    "Claim to listing ratio by provider",
    "Total quantity donated by provider" ]

/-- What the Queries-tab dispatcher does with a chosen name (app.py lines
384-394): two names are special-cased to first wait for a caller-supplied
input (a city string; an integer day count); every other name is run
directly with no parameters. -/
inductive QDispatch where
  | awaitsCityInput
  | awaitsDaysInput
  | runsDirect
deriving DecidableEq

/-- The Queries-tab dispatch (app.py lines 384-394). -/
def q_choice_dispatch (q : String) : QDispatch :=
  if q = "Provider contacts in selected city" then QDispatch.awaitsCityInput
  else if q = "Listings nearing expiry (<= N days)" then QDispatch.awaitsDaysInput
  else QDispatch.runsDirect

/-- `ORDER BY food_id DESC` on food listings. -/
def flIdDescGE (x y : FoodListing) : Prop :=
  y.food_id ≤ x.food_id

instance : DecidableRel flIdDescGE := fun x y =>
  inferInstanceAs (Decidable (y.food_id ≤ x.food_id))

instance : IsTotal FoodListing flIdDescGE :=
  ⟨fun a b => Nat.le_total b.food_id a.food_id⟩

instance : IsTrans FoodListing flIdDescGE :=
  ⟨fun _ _ _ hab hbc => Nat.le_trans hbc hab⟩

/-- `ORDER BY claim_id DESC` on claims. -/
def claimIdDescGE (x y : Claim) : Prop :=
  y.claim_id ≤ x.claim_id

instance : DecidableRel claimIdDescGE := fun x y =>
  inferInstanceAs (Decidable (y.claim_id ≤ x.claim_id))

instance : IsTotal Claim claimIdDescGE :=
  ⟨fun a b => Nat.le_total b.claim_id a.claim_id⟩

instance : IsTrans Claim claimIdDescGE :=
  ⟨fun _ _ _ hab hbc => Nat.le_trans hbc hab⟩

/-- `ORDER BY provider_id` on providers. -/
def provIdAscLE (x y : Provider) : Prop :=
  x.provider_id ≤ y.provider_id

instance : DecidableRel provIdAscLE := fun x y =>
  inferInstanceAs (Decidable (x.provider_id ≤ y.provider_id))

instance : IsTotal Provider provIdAscLE :=
  ⟨fun a b => Nat.le_total a.provider_id b.provider_id⟩

instance : IsTrans Provider provIdAscLE :=
  ⟨fun _ _ _ hab hbc => Nat.le_trans hab hbc⟩

/-- `ORDER BY receiver_id` on receivers. -/
def recvIdAscLE (x y : Receiver) : Prop :=
  x.receiver_id ≤ y.receiver_id

instance : DecidableRel recvIdAscLE := fun x y =>
  inferInstanceAs (Decidable (x.receiver_id ≤ y.receiver_id))

instance : IsTotal Receiver recvIdAscLE :=
  ⟨fun a b => Nat.le_total a.receiver_id b.receiver_id⟩

instance : IsTrans Receiver recvIdAscLE :=
  ⟨fun _ _ _ hab hbc => Nat.le_trans hab hbc⟩

/-- Overview "Recent Listings" (app.py line 62): `SELECT ... FROM
food_listings ORDER BY food_id DESC LIMIT 20` (whole rows kept; the SQL
projects seven of the nine columns). -/
def recentListings (db : DB) : List FoodListing :=
  (List.insertionSort flIdDescGE db.food_listings).take 20

/-- CRUD browse view for providers (app.py line 406):
`SELECT * FROM providers ORDER BY provider_id` — note: no LIMIT. -/
def providersBrowse (db : DB) : List Provider :=
  List.insertionSort provIdAscLE db.providers

/-- CRUD browse view for receivers (app.py line 433):
`SELECT * FROM receivers ORDER BY receiver_id` — note: no LIMIT. -/
def receiversBrowse (db : DB) : List Receiver :=
  List.insertionSort recvIdAscLE db.receivers

/-- CRUD browse view for food listings (app.py line 459):
`SELECT * FROM food_listings ORDER BY food_id DESC LIMIT 200`. -/
def foodListingsBrowse (db : DB) : List FoodListing :=
  (List.insertionSort flIdDescGE db.food_listings).take 200

/-- CRUD browse view for claims (app.py line 494):
`SELECT * FROM claims ORDER BY claim_id DESC LIMIT 200`. -/
def claimsBrowse (db : DB) : List Claim :=
  (List.insertionSort claimIdDescGE db.claims).take 200

/-- The next SQLite rowid for an autoassigned integer primary key:
one more than the largest existing id. -/
def freshId (ids : List Nat) : Nat :=
  ids.foldr max 0 + 1

/-- Foreign-key check for a nullable reference to `providers` (PRAGMA
foreign_keys is ON, app.py line 14): NULL is allowed, a value must match
an existing `provider_id`. -/
def fkProviderOK (db : DB) (pid : Option Nat) : Bool :=
  match pid with
  | none => true
  | some i => db.providers.any (fun p => p.provider_id == i)

/-- Foreign-key check for a nullable reference to `receivers`. -/
def fkReceiverOK (db : DB) (rid : Option Nat) : Bool :=
  match rid with
  | none => true
  | some i => db.receivers.any (fun r => r.receiver_id == i)

/-- Foreign-key check for a nullable reference to `food_listings`. -/
def fkFoodOK (db : DB) (fid : Option Nat) : Bool :=
  match fid with
  | none => true
  | some i => db.food_listings.any (fun fl => fl.food_id == i)

/-- The write operations the CRUD tab issues (app.py lines 404-515):
insert / update-by-id / delete-by-id for each of the four entities. -/
inductive Op where
  | insertProvider (name type address city contact : String)
  | updateProvider (pid : Nat) (name type address city contact : String)
  | deleteProvider (pid : Nat)
  | insertReceiver (name type city contact : String)
  | updateReceiver (rid : Nat) (name type city contact : String)
  | deleteReceiver (rid : Nat)
  | insertFood (food_name : String) (quantity : Int) (expiry : Option Int)
      (pid : Option Nat) (ptype loc ftype mtype : Option String)
  | updateFood (fid : Nat) (food_name : String) (quantity : Int)
      (expiry : Option Int) (pid : Option Nat) (ptype loc ftype mtype : Option String)
  | deleteFood (fid : Nat)
  | insertClaim (fid rid : Option Nat) (status : Option String) (ts : String)
  | updateClaim (cid : Nat) (fid rid : Option Nat) (status : Option String) (ts : String)
  | deleteClaim (cid : Nat)

/-- One committed CRUD write (each statement commits atomically,
app.py lines 27-30; a constraint violation aborts the statement and
leaves the database unchanged).  Deletion semantics come from the schema
(init_db.py lines 45-70, with PRAGMA foreign_keys ON):
claims.food_id is ON DELETE CASCADE, food_listings.provider_id and
claims.receiver_id are ON DELETE SET NULL; the referential actions fire
only for children of a row actually deleted. -/
def step (db : DB) (op : Op) : DB :=
  match op with
  | Op.insertProvider name ty addr city contact =>
      { db with providers := db.providers ++
          [⟨freshId (db.providers.map (fun p => p.provider_id)), name, ty, addr, city, contact⟩] }
  | Op.updateProvider pid name ty addr city contact =>
      { db with providers := db.providers.map (fun p =>
          if p.provider_id = pid then ⟨pid, name, ty, addr, city, contact⟩ else p) }
  | Op.deleteProvider pid =>
      { db with
        providers := db.providers.filter (fun p => p.provider_id ≠ pid),
        food_listings := db.food_listings.map (fun fl =>
          if db.providers.any (fun p => p.provider_id == pid) ∧ fl.provider_id = some pid
          then { fl with provider_id := none } else fl) }
  | Op.insertReceiver name ty city contact =>
      { db with receivers := db.receivers ++
          [⟨freshId (db.receivers.map (fun r => r.receiver_id)), name, ty, city, contact⟩] }
  | Op.updateReceiver rid name ty city contact =>
      { db with receivers := db.receivers.map (fun r =>
          if r.receiver_id = rid then ⟨rid, name, ty, city, contact⟩ else r) }
  | Op.deleteReceiver rid =>
      { db with
        receivers := db.receivers.filter (fun r => r.receiver_id ≠ rid),
        claims := db.claims.map (fun c =>
          if db.receivers.any (fun r => r.receiver_id == rid) ∧ c.receiver_id = some rid
          then { c with receiver_id := none } else c) }
  | Op.insertFood fname qty expiry pid ptype loc ftype mtype =>
      if fkProviderOK db pid then
        { db with food_listings := db.food_listings ++
            [⟨freshId (db.food_listings.map (fun fl => fl.food_id)),
              fname, qty, expiry, pid, ptype, loc, ftype, mtype⟩] }
      else db
  | Op.updateFood fid fname qty expiry pid ptype loc ftype mtype =>
      if db.food_listings.any (fun fl => fl.food_id == fid) ∧ ¬ fkProviderOK db pid
      then db
      else
        { db with food_listings := db.food_listings.map (fun fl =>
            if fl.food_id = fid
            then ⟨fid, fname, qty, expiry, pid, ptype, loc, ftype, mtype⟩ else fl) }
  | Op.deleteFood fid =>
      { db with
        food_listings := db.food_listings.filter (fun fl => fl.food_id ≠ fid),
        claims := db.claims.filter (fun c =>
          !(db.food_listings.any (fun fl => fl.food_id == fid && c.food_id == some fl.food_id))) }
  | Op.insertClaim fid rid status ts =>
      if fkFoodOK db fid ∧ fkReceiverOK db rid then
        { db with claims := db.claims ++
            [⟨freshId (db.claims.map (fun c => c.claim_id)), fid, rid, status, ts⟩] }
      else db
  | Op.updateClaim cid fid rid status ts =>
      if db.claims.any (fun c => c.claim_id == cid) ∧
          ¬ (fkFoodOK db fid ∧ fkReceiverOK db rid)
      then db
      else
        { db with claims := db.claims.map (fun c =>
            if c.claim_id = cid then ⟨cid, fid, rid, status, ts⟩ else c) }
  | Op.deleteClaim cid =>
      { db with claims := db.claims.filter (fun c => c.claim_id ≠ cid) }

/-- Referential integrity of claims towards listings: every claim with a
non-null `food_id` references an existing food listing. -/
def ClaimsRefOK (db : DB) : Prop :=
  ∀ c ∈ db.claims, ∀ fid : Nat, c.food_id = some fid →
    ∃ fl ∈ db.food_listings, fl.food_id = fid

/-- A fixture receiver used to instantiate the theorems. -/
def exReceiver : Receiver :=
  ⟨1, "Helping Hands", "NGO", "Pune", "123"⟩

/-- A fixture listing (all optional columns populated). -/
def exListing : FoodListing :=
  ⟨1, "Rice", 10, some 100, some 1, some "Restaurant", some "Delhi", some "Veg", some "Lunch"⟩

/-- A fixture claim with mixed-case status "Pending". -/
def exClaimUpper : Claim :=
  ⟨1, some 1, some 1, some "Pending", "2024-01-01 10:00:00"⟩

/-- A fixture claim with lower-case status "pending". -/
def exClaimLower : Claim :=
  ⟨2, some 1, some 1, some "pending", "2024-01-02 10:00:00"⟩

/-- Fixture database with two claims whose statuses differ only in case. -/
def exDB1 : DB :=
  ⟨[], [exReceiver], [exListing], [exClaimUpper, exClaimLower]⟩

/-- A fixture listing that expired yesterday relative to `today = 10`. -/
def exExpiredListing : FoodListing :=
  ⟨1, "Bread", 5, some 9, none, none, none, none, none⟩

/-- Fixture database holding only an already-expired listing. -/
def exDB2 : DB :=
  ⟨[], [], [exExpiredListing], []⟩

/-- A fixture provider owning `exListing` (its `provider_id` is 1). -/
def exProvider : Provider :=
  ⟨1, "Alice", "Restaurant", "Some Street", "Delhi", "99"⟩

/-- Fixture database with one provider, one listing of that provider and
one claim on that listing. -/
def exDB4 : DB :=
  ⟨[exProvider], [exReceiver], [exListing], [exClaimUpper]⟩

/-- A provider row with a given id and blank text fields, for building a
large fixture table. -/
def mkProvider (i : Nat) : Provider :=
  ⟨i, "", "", "", "", ""⟩

/-- Fixture database with 201 providers (one more than the claimed
200-row browse bound). -/
def exDB8 : DB :=
  ⟨(List.range 201).map mkProvider, [], [], []⟩

/-- A fixture claim that is pending (upper case) but whose receiver
reference is null. -/
def exClaimNullRecv : Claim :=
  ⟨3, some 1, none, some "PENDING", "2024-01-03 10:00:00"⟩

/-- Fixture database whose only pending claim has a null `receiver_id`. -/
def exDB10 : DB :=
  ⟨[], [exReceiver], [exListing], [exClaimNullRecv]⟩

/-- A listing whose expiry is `today + 4`: inside the Insights 5-day
window, outside the alert/report 3-day window. -/
def dayFourListing (today : Int) : FoodListing :=
  ⟨0, "x", 0, some (today + 4), none, none, none, none, none⟩

/-- The listings of one provider, in the spec's words ("the number of
distinct listings of that provider"): rows of `food_listings` whose
`provider_id` references that provider. -/
def providerListings (db : DB) (p : Provider) : List FoodListing :=
  db.food_listings.filter (fun fl => fl.provider_id = some p.provider_id)

/-- Modelled from the spec's words: the number of distinct listings of a
provider. -/
def providerDistinctListings (db : DB) (p : Provider) : Nat :=
  (((providerListings db p).map (fun fl => fl.food_id)).dedup).length

/-- Modelled from the spec's words: the number of distinct claims on a
provider's listings. -/
def providerDistinctClaims (db : DB) (p : Provider) : Nat :=
  (((db.claims.filter
      (fun c => decide (∃ fl ∈ providerListings db p, c.food_id = some fl.food_id))).map
    (fun c => c.claim_id)).dedup).length

/-- A fixture provider named "A" (id 1) that owns a listing. -/
def exProviderDup1 : Provider :=
  ⟨1, "A", "", "", "", ""⟩

/-- A second fixture provider also named "A" (id 2) with no listings —
`provider_id` is the only key, names may repeat. -/
def exProviderDup2 : Provider :=
  ⟨2, "A", "", "", "", ""⟩

/-- A fixture listing owned by provider id 1. -/
def exListingDup : FoodListing :=
  ⟨1, "Rice", 5, some 3, some 1, none, none, none, none⟩

/-- A fixture claim on listing 1. -/
def exClaimDup : Claim :=
  ⟨100, some 1, none, some "Pending", "2024-01-01 10:00:00"⟩

/-- Fixture database with two providers sharing the name "A": id 1 has a
listing with a claim, id 2 has no listings. -/
def exDBdup : DB :=
  ⟨[exProviderDup1, exProviderDup2], [], [exListingDup], [exClaimDup]⟩

/-- Helper: a conditionally appended `AND col IN (...)` clause passes
exactly when the category has no selection or the value is a member. -/
theorem ifEmpty_eq_true (l : List String) (b : Bool) :
    ((if l.isEmpty then true else b) = true) ↔ (l = [] ∨ b = true) := by
  by_cases h : l.isEmpty <;> simp_all [List.isEmpty_iff]

/-- Helper: a flatMap over a list vanishes when every element contributes
nothing. -/
theorem flatMap_nil_of_forall_nil {α β : Type} (l : List α) (f : α → List β)
    (h : ∀ a ∈ l, f a = []) : l.flatMap f = [] := by
  induction l with
  | nil => rfl
  | cons a t ih =>
    simp only [List.flatMap_cons, h a (by simp), List.nil_append]
    exact ih (fun a2 ha2 => h a2 (by simp [ha2]))

/-- Helper: summing, over each distinct image value, the number of list
elements mapped to it recovers the list's length (the groups of a
`GROUP BY` partition the table). -/
theorem sum_map_length_filter_dedup {α β : Type} [DecidableEq β]
    (f : α → β) (l : List α) :
    (((l.map f).dedup).map (fun b => (l.filter (fun a => f a = b)).length)).sum
      = l.length := by
  have h1 : ∀ b : β, (l.filter (fun a => f a = b)).length = (l.map f).count b := by
    intro b
    induction l with
    | nil => rfl
    | cons a t ih =>
      by_cases hab : f a = b
      · simp [List.count_cons, List.filter_cons, hab, ih]
      · simp [List.count_cons, List.filter_cons, hab, ih]
  have h2 : (((l.map f).dedup).map (fun b => (l.filter (fun a => f a = b)).length))
      = ((l.map f).dedup).map (fun b => (l.map f).count b) := by
    refine List.map_congr_left (fun b _ => h1 b)
  rw [h2, List.sum_map_count_dedup_eq_length, List.length_map]

/-- C1 counterexample: in the database `exDB1`, whose two claims have
statuses "Pending" and "pending", "Claim completion percentage" (which
groups by the raw `status`) puts them in two distinct groups, while
"Claims status distribution" (which groups by `LOWER(status)`) puts them
in one.  The claim that case variants share a group in the completion
percentage is therefore false. -/
theorem completion_percentage_splits_case_cex :
    (claimCompletionPercentage exDB1).map (fun row => row.1) =
      [some "Pending", some "pending"] ∧
    (claimsStatusDistribution exDB1).map (fun row => row.1) = [some "pending"] := by
  constructor
  · decide
  · decide

/-- C1 (amended): "Claims status distribution" groups case-insensitively —
two claims with statuses equal up to case are counted in one shared row
keyed by the lowercased status — and a mixed-case "Pending" claim whose
receiver and listing references resolve appears in alert rule 3, its
stored status case intact in the emitted row; "Claim completion
percentage", however, groups by the raw stored status (the
counterexample), so case variants are split there. -/
theorem status_grouped_case_insensitively (db : DB) (c1 c2 c3 : Claim)
    (r : Receiver) (f : FoodListing)
    (h1 : c1 ∈ db.claims) (h2 : c2 ∈ db.claims)
    (hlow : lowerOpt c1.status = lowerOpt c2.status)
    (h3 : c3 ∈ db.claims) (hr : r ∈ db.receivers) (hf : f ∈ db.food_listings)
    (h3s : c3.status = some "Pending")
    (h3r : c3.receiver_id = some r.receiver_id) (h3f : c3.food_id = some f.food_id) :
    (lowerOpt c1.status,
        (db.claims.filter (fun c => lowerOpt c.status = lowerOpt c1.status)).length)
      ∈ claimsStatusDistribution db ∧
    c1 ∈ db.claims.filter (fun c => lowerOpt c.status = lowerOpt c1.status) ∧
    c2 ∈ db.claims.filter (fun c => lowerOpt c.status = lowerOpt c1.status) ∧
    (⟨c3.claim_id, r.name, f.food_name, some "Pending", c3.timestamp⟩ : PendingRow)
      ∈ pending_claims db := by
  refine ⟨?_, ?_, ?_, ?_⟩
  · rw [claimsStatusDistribution, (List.perm_insertionSort _ _).mem_iff]
    refine List.mem_map.mpr ⟨lowerOpt c1.status, ?_, rfl⟩
    exact List.mem_dedup.mpr (List.mem_map.mpr ⟨c1, h1, rfl⟩)
  · exact List.mem_filter.mpr ⟨h1, by simp⟩
  · exact List.mem_filter.mpr ⟨h2, by simp [hlow]⟩
  · rw [pending_claims, (List.perm_insertionSort _ _).mem_iff]
    refine List.mem_flatMap.mpr ⟨c3, h3, ?_⟩
    refine List.mem_flatMap.mpr ⟨r, hr, ?_⟩
    refine List.mem_filterMap.mpr ⟨f, hf, ?_⟩
    rw [if_pos ⟨h3r, h3f, by rw [h3s]; decide⟩, h3s]

/-- C1 witness: the amended theorem applied to `exDB1` — the "Pending"
and "pending" claims share the distribution row keyed `some "pending"`,
and the "Pending" claim appears in alert rule 3. -/
theorem status_grouped_case_insensitively_witness :
    (lowerOpt exClaimUpper.status,
        (exDB1.claims.filter
          (fun c => lowerOpt c.status = lowerOpt exClaimUpper.status)).length)
      ∈ claimsStatusDistribution exDB1 ∧
    exClaimUpper ∈ exDB1.claims.filter
      (fun c => lowerOpt c.status = lowerOpt exClaimUpper.status) ∧
    exClaimLower ∈ exDB1.claims.filter
      (fun c => lowerOpt c.status = lowerOpt exClaimUpper.status) ∧
    (⟨exClaimUpper.claim_id, exReceiver.name, exListing.food_name, some "Pending",
        exClaimUpper.timestamp⟩ : PendingRow)
      ∈ pending_claims exDB1 :=
  status_grouped_case_insensitively exDB1 exClaimUpper exClaimLower exClaimUpper
    exReceiver exListing
    (by decide) (by decide) (by decide) (by decide) (by decide) (by decide)
    rfl rfl rfl

/-- C2 counterexample: with `today = 10`, the listing `exExpiredListing`
(expiry day 9, i.e. yesterday) is returned by alert rule 1 although its
expiry date is not in the window {today, ..., today+3}; the claimed
"if and only if" therefore fails — the query has no lower bound. -/
theorem expiring_alert_includes_expired_cex :
    exExpiredListing ∈ expiring_food exDB2 10 ∧
    exExpiredListing.expiry_date = some 9 ∧ (9 : Int) < 10 := by
  decide

/-- C2 (amended): for every table and reference day, alert rule 1 returns
exactly the listings whose (non-null) expiry date is at most `today + 3`
— already-expired listings included, there is no lower bound — and the
rule is active exactly when that set is non-empty. -/
theorem expiring_alert_window_upper_bound (db : DB) (today : Int) (fl : FoodListing) :
    (fl ∈ expiring_food db today ↔
      fl ∈ db.food_listings ∧ dateLE fl.expiry_date (today + 3) = true) ∧
    (expiringRuleActive db today = true ↔ expiring_food db today ≠ []) := by
  constructor
  · simp [expiring_food, List.mem_insertionSort, List.mem_filter, alertExpiringPred]
  · simp [expiringRuleActive, List.isEmpty_iff]

/-- C3 (confirmed): the Explore filter returns exactly the listings
satisfying, for each category with at least one selected value,
membership of the row's value in that category's selected set
(conjunction across categories, disjunction within one); an empty
selection map returns every listing, and a single-city selection returns
exactly the listings with that location. -/
theorem explore_filter_ok (db : DB) (s : Selections) (fl : FoodListing) (X : String) :
    (fl ∈ exploreFiltered db s ↔
      fl ∈ db.food_listings ∧
        (s.cities = [] ∨ inValues fl.location s.cities = true) ∧
        (s.provider_types = [] ∨ inValues fl.provider_type s.provider_types = true) ∧
        (s.food_types = [] ∨ inValues fl.food_type s.food_types = true) ∧
        (s.meal_types = [] ∨ inValues fl.meal_type s.meal_types = true)) ∧
    exploreFiltered db emptySelections = db.food_listings ∧
    exploreFiltered db (citySelection X) =
      db.food_listings.filter (fun fl2 => fl2.location = some X) := by
  refine ⟨?_, ?_, ?_⟩
  · simp only [exploreFiltered, List.mem_filter, exploreWhere, Bool.true_and,
      Bool.and_eq_true, ifEmpty_eq_true]
    tauto
  · show db.food_listings.filter (fun _ => true) = db.food_listings
    exact List.filter_true db.food_listings
  · refine List.filter_congr ?_
    intro fl2 _
    cases h : fl2.location <;>
      simp [exploreWhere, citySelection, inValues, h, List.contains]

/-- C4 counterexample: the ratio query groups by provider NAME
(`GROUP BY p.name`, app.py line 370), so in `exDBdup` — two providers
both named "A", where id 1 has a listing with a claim and id 2 has zero
listings — the whole output is the single row `("A", 1)`: the
zero-listing provider id 2 gets no null-ratio row, refuting the claim's
per-provider reading over every database state. -/
theorem ratio_merges_duplicate_names_cex :
    exProviderDup2 ∈ exDBdup.providers ∧
    providerListings exDBdup exProviderDup2 = [] ∧
    claimToListingRatioByProvider exDBdup = [("A", some (1 : ℚ))] ∧
    ("A", (none : Option ℚ)) ∉ claimToListingRatioByProvider exDBdup := by
  have hnames : (exDBdup.providers.map (fun p => p.name)).dedup = ["A"] := by
    decide
  have h1 : ratioGroupClaimIds exDBdup "A" = [100] := by
    decide
  have h2 : ratioGroupFoodIds exDBdup "A" = [1] := by
    decide
  have h3 : claimToListingRatioByProvider exDBdup = [("A", some (1 : ℚ))] := by
    rw [claimToListingRatioByProvider, hnames]
    simp only [List.map_cons, List.map_nil]
    rw [h1, h2]
    norm_num [List.insertionSort, List.orderedInsert, sqlDiv]
  refine ⟨by decide, by decide, h3, ?_⟩
  rw [h3]
  simp

/-- C4 (amended): the claim-to-listing ratio query never divides by
zero, and in the emitted `ORDER BY ratio DESC` order every null-ratio
row comes after all non-null rows; rows are keyed by provider name
(`GROUP BY p.name`) and aggregate every provider sharing that name: the
row for a provider's name has a null ratio when its name group has no
listings, else exactly the group's distinct-claims / distinct-listings.
Only when provider names are pairwise distinct does this give the
claim's per-provider reading: null for a zero-listing provider, else
that provider's distinct claims over distinct listings. -/
theorem claim_ratio_by_provider_grouped (db : DB) (p : Provider)
    (hp : p ∈ db.providers) :
    (ratioGroupListings db p.name = [] →
      (p.name, none) ∈ claimToListingRatioByProvider db) ∧
    (ratioGroupListings db p.name ≠ [] →
      (p.name, some (((ratioGroupClaimIds db p.name).length : ℚ)
          / ((ratioGroupFoodIds db p.name).length : ℚ)))
        ∈ claimToListingRatioByProvider db) ∧
    (claimToListingRatioByProvider db).Pairwise (fun x y => x.2 = none → y.2 = none) ∧
    ((db.providers.map (fun q => q.name)).Nodup →
      (providerListings db p = [] → (p.name, none) ∈ claimToListingRatioByProvider db) ∧
      (providerListings db p ≠ [] →
        (p.name, some ((providerDistinctClaims db p : ℚ)
            / (providerDistinctListings db p : ℚ)))
          ∈ claimToListingRatioByProvider db)) := by
  have hkey : p.name ∈ (db.providers.map (fun q => q.name)).dedup :=
    List.mem_dedup.mpr (List.mem_map.mpr ⟨p, hp, rfl⟩)
  have hempty0 : ratioGroupListings db p.name = [] →
      (p.name, none) ∈ claimToListingRatioByProvider db := by
    intro hempty
    rw [claimToListingRatioByProvider, (List.perm_insertionSort _ _).mem_iff]
    refine List.mem_map.mpr ⟨p.name, hkey, ?_⟩
    have hnil : ratioGroupFoodIds db p.name = [] := by
      rw [ratioGroupFoodIds, hempty]
      rfl
    rw [hnil]
    simp [sqlDiv]
  have hne0 : ratioGroupListings db p.name ≠ [] →
      (p.name, some (((ratioGroupClaimIds db p.name).length : ℚ)
          / ((ratioGroupFoodIds db p.name).length : ℚ)))
        ∈ claimToListingRatioByProvider db := by
    intro hne
    rw [claimToListingRatioByProvider, (List.perm_insertionSort _ _).mem_iff]
    refine List.mem_map.mpr ⟨p.name, hkey, ?_⟩
    have hlen : ((ratioGroupFoodIds db p.name).length : ℚ) ≠ 0 := by
      have h1 : ((ratioGroupListings db p.name).map (fun fl => fl.food_id)).dedup ≠ [] := by
        rw [ne_eq, List.dedup_eq_nil, List.map_eq_nil_iff]
        exact hne
      have h2 := List.length_pos.mpr h1
      rw [ratioGroupFoodIds]
      exact_mod_cast Nat.pos_iff_ne_zero.mp h2
    rw [sqlDiv, if_neg hlen]
  refine ⟨hempty0, hne0, ?_, ?_⟩
  · have hs := List.sorted_insertionSort ratioRowGE
      (((db.providers.map (fun q => q.name)).dedup).map (fun nm =>
        (nm, sqlDiv ((ratioGroupClaimIds db nm).length : ℚ)
                    ((ratioGroupFoodIds db nm).length : ℚ))))
    refine hs.imp ?_
    intro x y hxy hx
    cases hy : y.2 with
    | none => rfl
    | some v =>
      rw [ratioRowGE, hx, hy] at hxy
      simp [optRatDescGE] at hxy
  · intro hnd
    have hgroup : ratioGroupListings db p.name = providerListings db p := by
      refine List.filter_congr (fun fl _ => ?_)
      simp only [decide_eq_decide]
      constructor
      · rintro ⟨q, hq, hqn, hfl⟩
        have hqp : q = p := List.inj_on_of_nodup_map hnd hq hp hqn
        rw [← hqp]
        exact hfl
      · intro hfl
        exact ⟨p, hp, rfl, hfl⟩
    have hfood : ratioGroupFoodIds db p.name
        = (((providerListings db p).map (fun fl => fl.food_id)).dedup) := by
      rw [ratioGroupFoodIds, hgroup]
    have hclaims : ratioGroupClaimIds db p.name
        = ((db.claims.filter
              (fun c => decide (∃ fl ∈ providerListings db p, c.food_id = some fl.food_id))).map
            (fun c => c.claim_id)).dedup := by
      rw [ratioGroupClaimIds]
      simp only [hgroup]
    constructor
    · intro hempty
      refine hempty0 ?_
      rw [hgroup]
      exact hempty
    · intro hne
      have hmem := hne0 (by rw [hgroup]; exact hne)
      rw [providerDistinctClaims, providerDistinctListings, ← hfood, ← hclaims]
      exact hmem

/-- C4 witness: in `exDB4`, the name group of provider "Alice" has one
listing with one claim, and her ratio row is present with a defined
ratio. -/
theorem claim_ratio_by_provider_grouped_witness :
    (exProvider.name,
        some (((ratioGroupClaimIds exDB4 exProvider.name).length : ℚ)
          / ((ratioGroupFoodIds exDB4 exProvider.name).length : ℚ)))
      ∈ claimToListingRatioByProvider exDB4 :=
  (claim_ratio_by_provider_grouped exDB4 exProvider (by decide)).2.1 (by decide)

/-- C5 (confirmed): for a non-empty claims table, each row of "Claim
completion percentage" is its status group's count times 100 over the
global claim count, lies in [0, 100], and over all status groups the
percentages sum to exactly 100 in exact rational arithmetic. -/
theorem claim_completion_percentage_sums_to_hundred (db : DB) (h : db.claims ≠ []) :
    (∀ row ∈ claimCompletionPercentage db,
        row.2 = ((db.claims.filter (fun c => c.status = row.1)).length : ℚ) * 100
                  / (db.claims.length : ℚ) ∧
        0 ≤ row.2 ∧ row.2 ≤ 100) ∧
    ((claimCompletionPercentage db).map (fun row => row.2)).sum = 100 := by
  have hT : (0 : ℚ) < (db.claims.length : ℚ) := by
    have := List.length_pos.mpr h
    exact_mod_cast this
  constructor
  · intro row hrow
    obtain ⟨s, hs, rfl⟩ := List.mem_map.mp hrow
    refine ⟨rfl, ?_, ?_⟩
    · positivity
    · rw [div_le_iff₀ hT]
      have hle : ((db.claims.filter (fun c => c.status = s)).length : ℚ)
          ≤ (db.claims.length : ℚ) := by
        exact_mod_cast List.length_filter_le _ _
      nlinarith
  · rw [claimCompletionPercentage, List.map_map]
    have hrw : ((db.claims.map (fun c => c.status)).dedup).map
          ((fun row : Option String × ℚ => row.2) ∘
            (fun s => (s, ((db.claims.filter (fun c => c.status = s)).length : ℚ) * 100
                  / (db.claims.length : ℚ))))
        = ((db.claims.map (fun c => c.status)).dedup).map
            (fun s => (((db.claims.filter (fun c => c.status = s)).length : ℚ))
                * (100 / (db.claims.length : ℚ))) := by
      refine List.map_congr_left (fun s _ => ?_)
      simp only [Function.comp]
      ring
    rw [hrw, List.sum_map_mul_right]
    have hcast : (((db.claims.map (fun c => c.status)).dedup).map
          (fun s => (((db.claims.filter (fun c => c.status = s)).length : ℚ)))).sum
        = ((((db.claims.map (fun c => c.status)).dedup).map
            (fun s => (db.claims.filter (fun c => c.status = s)).length)).sum : ℚ) := by
      rw [Nat.cast_list_sum, List.map_map]
      rfl
    rw [hcast, sum_map_length_filter_dedup]
    field_simp

/-- C5 witness: the percentage theorem applied to the two-claim fixture
database `exDB1`. -/
theorem claim_completion_percentage_sums_to_hundred_witness :
    (∀ row ∈ claimCompletionPercentage exDB1,
        row.2 = ((exDB1.claims.filter (fun c => c.status = row.1)).length : ℚ) * 100
                  / (exDB1.claims.length : ℚ) ∧
        0 ≤ row.2 ∧ row.2 ≤ 100) ∧
    ((claimCompletionPercentage exDB1).map (fun row => row.2)).sum = 100 :=
  claim_completion_percentage_sums_to_hundred exDB1 (by decide)

/-- C6 (confirmed): alert rule 1 and the report "Expiring Soon Food"
filter `food_listings` with the same predicate (expiry at most
`today + 3`), hence select the same listings, and both emit them in
ascending expiry order; the Insights "Expiry Risk Analysis" view uses
the distinct 5-day window — a listing expiring on `today + 4` is inside
the Insights window but outside both 3-day queries. -/
theorem alert_report_expiring_same_rows (db : DB) (today : Int) :
    db.food_listings.filter (alertExpiringPred today)
        = db.food_listings.filter (reportExpiringPred today) ∧
    (∀ fl : FoodListing, fl ∈ expiring_food db today ↔ fl ∈ expiringSoonFoodReport db today) ∧
    List.Sorted flExpLE (expiring_food db today) ∧
    List.Sorted flExpLE (expiringSoonFoodReport db today) ∧
    (∀ fl : FoodListing, fl ∈ expiryRiskSelected db today ↔
        fl ∈ db.food_listings ∧ dateLE fl.expiry_date (today + 5) = true) ∧
    expiryRiskPred today (dayFourListing today) = true ∧
    alertExpiringPred today (dayFourListing today) = false ∧
    reportExpiringPred today (dayFourListing today) = false := by
  refine ⟨rfl, ?_, ?_, ?_, ?_, ?_, ?_, ?_⟩
  · intro fl
    simp [expiring_food, expiringSoonFoodReport, List.mem_insertionSort,
      List.mem_filter, alertExpiringPred, reportExpiringPred]
  · exact List.sorted_insertionSort _ _
  · exact List.sorted_insertionSort _ _
  · intro fl
    simp [expiryRiskSelected, List.mem_filter, expiryRiskPred]
  · simp only [expiryRiskPred, dayFourListing, dateLE, decide_eq_true_eq]
    omega
  · simp only [alertExpiringPred, dayFourListing, dateLE, decide_eq_false_iff_not]
    omega
  · simp only [reportExpiringPred, dayFourListing, dateLE, decide_eq_false_iff_not]
    omega

/-- C7 counterexample: neither "Provider contacts in selected city" nor
"Listings nearing expiry (<= N days)" — the only two names the
dispatcher treats as parameterized — is a member of the query catalog,
and no catalog entry is dispatched to a parameter-awaiting branch; the
claim that exactly two catalog entries require a parameter is false. -/
theorem catalog_two_param_entries_cex :
    ("Provider contacts in selected city" ∉ queriesNames) ∧
    ("Listings nearing expiry (<= N days)" ∉ queriesNames) ∧
    (queriesNames.countP
      (fun q => decide (q_choice_dispatch q ≠ QDispatch.runsDirect))) = 0 := by
  decide

/-- C7 (amended): every entry of the query catalog is dispatched directly
and takes no caller-supplied parameter; the dispatcher's two
parameter-awaiting branches belong to names that are not catalog
entries. -/
theorem catalog_entries_run_without_params (q : String) (hq : q ∈ queriesNames) :
    q_choice_dispatch q = QDispatch.runsDirect := by
  fin_cases hq <;> rfl

/-- C7 witness: the first catalog entry runs directly. -/
theorem catalog_entries_run_without_params_witness :
    q_choice_dispatch "Providers per city" = QDispatch.runsDirect :=
  catalog_entries_run_without_params "Providers per city" (by decide)

/-- C8 counterexample: a database with 201 providers makes the providers
browse view return 201 rows — the claimed 200-row LIMIT does not exist
on the providers (or receivers) browse query. -/
theorem providers_browse_unbounded_cex :
    (providersBrowse exDB8).length = 201 ∧ 200 < 201 := by
  constructor
  · rw [providersBrowse, List.length_insertionSort]
    simp [exDB8]
  · decide

/-- C8 (amended): recent listings are capped at 20 rows and the food
listings and claims browse views at 200 rows, but the providers and
receivers browse views are unbounded — they return every row of their
tables. -/
theorem browse_views_row_bounds (db : DB) :
    (recentListings db).length ≤ 20 ∧
    (foodListingsBrowse db).length ≤ 200 ∧
    (claimsBrowse db).length ≤ 200 ∧
    (providersBrowse db).length = db.providers.length ∧
    (receiversBrowse db).length = db.receivers.length := by
  refine ⟨List.length_take_le _ _, List.length_take_le _ _, List.length_take_le _ _, ?_, ?_⟩
  · rw [providersBrowse, List.length_insertionSort]
  · rw [receiversBrowse, List.length_insertionSort]

/-- Helper: every single committed CRUD write preserves referential
integrity of claims towards listings. -/
theorem claimsRefOK_step (db : DB) (op : Op) (h : ClaimsRefOK db) :
    ClaimsRefOK (step db op) := by
  cases op with
  | insertProvider n t a ci co => exact h
  | updateProvider pid n t a ci co => exact h
  | insertReceiver n t ci co => exact h
  | updateReceiver rid n t ci co => exact h
  | deleteProvider pid =>
    intro c hc fid hfid
    obtain ⟨fl, hfl, hid⟩ := h c hc fid hfid
    simp only [step]
    refine ⟨if db.providers.any (fun p => p.provider_id == pid) ∧ fl.provider_id = some pid
        then { fl with provider_id := none } else fl, List.mem_map_of_mem _ hfl, ?_⟩
    split_ifs <;> exact hid
  | deleteReceiver rid =>
    intro c hc fid hfid
    simp only [step] at hc
    obtain ⟨c0, hc0, rfl⟩ := List.mem_map.mp hc
    have hfid0 : c0.food_id = some fid := by
      revert hfid
      split_ifs <;> (intro hfid; exact hfid)
    exact h c0 hc0 fid hfid0
  | deleteClaim cid =>
    intro c hc fid hfid
    exact h c (List.mem_of_mem_filter hc) fid hfid
  | insertFood fname qty e pid pt lo ft mt =>
    simp only [step]
    split_ifs with hfk
    · intro c hc fid hfid
      obtain ⟨fl, hfl, hid⟩ := h c hc fid hfid
      exact ⟨fl, List.mem_append_left _ hfl, hid⟩
    · exact h
  | updateFood fid0 fname qty e pid pt lo ft mt =>
    simp only [step]
    split_ifs with hcond
    · exact h
    · intro c hc fid hfid
      obtain ⟨fl, hfl, hid⟩ := h c hc fid hfid
      refine ⟨if fl.food_id = fid0 then ⟨fid0, fname, qty, e, pid, pt, lo, ft, mt⟩ else fl,
        List.mem_map_of_mem _ hfl, ?_⟩
      by_cases hf : fl.food_id = fid0
      · rw [if_pos hf]
        show fid0 = fid
        rw [← hf]
        exact hid
      · rw [if_neg hf]
        exact hid
  | deleteFood fid0 =>
    intro c hc fid hfid
    simp only [step] at hc
    have hc0 := List.mem_of_mem_filter hc
    have hpred := List.of_mem_filter hc
    obtain ⟨fl, hfl, hid⟩ := h c hc0 fid hfid
    have hne : fid ≠ fid0 := by
      intro heq
      have hany : db.food_listings.any
          (fun fl2 => fl2.food_id == fid0 && c.food_id == some fl2.food_id) = true := by
        refine List.any_eq_true.mpr ⟨fl, hfl, ?_⟩
        simp [hid, hfid, heq]
      simp [hany] at hpred
    refine ⟨fl, List.mem_filter.mpr ⟨hfl, ?_⟩, hid⟩
    simp [hid, hne]
  | insertClaim fid0 rid st ts =>
    simp only [step]
    split_ifs with hfk
    · intro c hc fid hfid
      rcases List.mem_append.mp hc with hc1 | hc2
      · exact h c hc1 fid hfid
      · have hceq : c = ⟨freshId (db.claims.map (fun c2 => c2.claim_id)),
            fid0, rid, st, ts⟩ := by
          simpa using hc2
        rw [hceq] at hfid
        have hf0 : fid0 = some fid := hfid
        have hfk1 := hfk.1
        rw [hf0] at hfk1
        obtain ⟨fl, hfl, hbeq⟩ := List.any_eq_true.mp hfk1
        exact ⟨fl, hfl, by simpa using hbeq⟩
    · exact h
  | updateClaim cid fid0 rid st ts =>
    simp only [step]
    split_ifs with hcond
    · exact h
    · intro c hc fid hfid
      obtain ⟨c0, hc0, rfl⟩ := List.mem_map.mp hc
      by_cases hcc : c0.claim_id = cid
      · rw [if_pos hcc] at hfid
        have hf0 : fid0 = some fid := hfid
        have hA : db.claims.any (fun c2 => c2.claim_id == cid) = true :=
          List.any_eq_true.mpr ⟨c0, hc0, by simp [hcc]⟩
        have hB : fkFoodOK db fid0 = true ∧ fkReceiverOK db rid = true := by
          by_contra hB
          exact hcond ⟨hA, hB⟩
        have hfk1 := hB.1
        rw [hf0] at hfk1
        obtain ⟨fl, hfl, hbeq⟩ := List.any_eq_true.mp hfk1
        exact ⟨fl, hfl, by simpa using hbeq⟩
      · rw [if_neg hcc] at hfid
        exact h c0 hc0 fid hfid

/-- C9 (confirmed): deleting an existing listing cascade-deletes exactly
the claims referencing it and removes only that listing; deleting an
existing provider nulls `provider_id` on exactly the listings that
referenced it, touching no other field and no other table; and after any
sequence of CRUD writes from a referentially sound state, every
remaining claim with a non-null `food_id` still references an existing
listing. -/
theorem crud_delete_cascade_setnull_integrity (db : DB) (fid pid : Nat)
    (hfl : ∃ fl ∈ db.food_listings, fl.food_id = fid)
    (hp : ∃ p ∈ db.providers, p.provider_id = pid)
    (hinv : ClaimsRefOK db) :
    (step db (Op.deleteFood fid)).claims
        = db.claims.filter (fun c => ¬ c.food_id = some fid) ∧
    (step db (Op.deleteFood fid)).food_listings
        = db.food_listings.filter (fun fl => fl.food_id ≠ fid) ∧
    (step db (Op.deleteProvider pid)).food_listings
        = db.food_listings.map (fun fl =>
            if fl.provider_id = some pid then { fl with provider_id := none } else fl) ∧
    (step db (Op.deleteProvider pid)).claims = db.claims ∧
    (step db (Op.deleteProvider pid)).receivers = db.receivers ∧
    (step db (Op.deleteProvider pid)).providers
        = db.providers.filter (fun p => p.provider_id ≠ pid) ∧
    (∀ ops : List Op, ClaimsRefOK (ops.foldl step db)) := by
  obtain ⟨fl0, hfl0, hid0⟩ := hfl
  obtain ⟨p0, hp0, hpid0⟩ := hp
  refine ⟨?_, rfl, ?_, rfl, rfl, rfl, ?_⟩
  · simp only [step]
    refine List.filter_congr (fun c _ => ?_)
    by_cases hcf : c.food_id = some fid
    · simp [hcf]
      exact ⟨fl0, hfl0, hid0, hid0.symm⟩
    · have hany : db.food_listings.any
          (fun fl2 => fl2.food_id == fid && c.food_id == some fl2.food_id) = false := by
        rw [List.any_eq_false]
        intro fl2 hfl2
        simp only [Bool.and_eq_true, beq_iff_eq, not_and]
        intro h1 h2
        rw [h1] at h2
        exact hcf h2
      simp [hany, hcf]
  · simp only [step]
    refine List.map_congr_left (fun fl _ => ?_)
    have hex : db.providers.any (fun p => p.provider_id == pid) = true :=
      List.any_eq_true.mpr ⟨p0, hp0, by simp [hpid0]⟩
    simp [hex]
  · have hfold : ∀ (ops : List Op) (d : DB),
        ClaimsRefOK d → ClaimsRefOK (ops.foldl step d) := by
      intro ops
      induction ops with
      | nil => intro d hd; exact hd
      | cons o t ih =>
        intro d hd
        exact ih (step d o) (claimsRefOK_step d o hd)
    exact fun ops => hfold ops db hinv

/-- C9 witness: the delete semantics and the integrity invariant,
instantiated on the one-provider / one-listing / one-claim fixture
database. -/
theorem crud_delete_cascade_setnull_integrity_witness :
    (step exDB4 (Op.deleteFood 1)).claims
        = exDB4.claims.filter (fun c => ¬ c.food_id = some 1) ∧
    (step exDB4 (Op.deleteFood 1)).food_listings
        = exDB4.food_listings.filter (fun fl => fl.food_id ≠ 1) ∧
    (step exDB4 (Op.deleteProvider 1)).food_listings
        = exDB4.food_listings.map (fun fl =>
            if fl.provider_id = some 1 then { fl with provider_id := none } else fl) ∧
    (step exDB4 (Op.deleteProvider 1)).claims = exDB4.claims ∧
    (step exDB4 (Op.deleteProvider 1)).receivers = exDB4.receivers ∧
    (step exDB4 (Op.deleteProvider 1)).providers
        = exDB4.providers.filter (fun p => p.provider_id ≠ 1) ∧
    (∀ ops : List Op, ClaimsRefOK (ops.foldl step exDB4)) :=
  crud_delete_cascade_setnull_integrity exDB4 1 1 (by decide) (by decide)
    (by
      intro c hc fid hfid
      simp only [exDB4] at hc
      rw [List.mem_singleton] at hc
      subst hc
      have h1 : (1 : Nat) = fid := Option.some.inj hfid
      refine ⟨exListing, by simp [exDB4], ?_⟩
      exact h1)

/-- C10 (confirmed): alert rule 3 inner-joins claims to receivers, so a
claim with a null `receiver_id` contributes no row whatever its status;
and when every (case-insensitively) pending claim has a null receiver
reference, the alert's row set is empty and the rule inactive. -/
theorem pending_alert_requires_receiver (db : DB) (c : Claim)
    (hc : c ∈ db.claims) (hnull : c.receiver_id = none) :
    pendingRowsOfClaim db c = [] ∧
    ((∀ c' ∈ db.claims, lowerOpt c'.status = some "pending" → c'.receiver_id = none) →
      pending_claims db = [] ∧ pendingRuleActive db = false) := by
  have hrows : ∀ c2 : Claim, c2.receiver_id = none → pendingRowsOfClaim db c2 = [] := by
    intro c2 h2
    refine flatMap_nil_of_forall_nil _ _ (fun r _ => ?_)
    refine List.filterMap_eq_nil_iff.mpr (fun f _ => ?_)
    rw [if_neg]
    rintro ⟨hj, -, -⟩
    rw [h2] at hj
    exact Option.noConfusion hj
  constructor
  · exact hrows c hnull
  · intro hall
    have hflat : db.claims.flatMap (pendingRowsOfClaim db) = [] := by
      refine flatMap_nil_of_forall_nil _ _ (fun c' hc' => ?_)
      by_cases hpend : lowerOpt c'.status = some "pending"
      · exact hrows c' (hall c' hc' hpend)
      · refine flatMap_nil_of_forall_nil _ _ (fun r _ => ?_)
        refine List.filterMap_eq_nil_iff.mpr (fun f _ => ?_)
        rw [if_neg]
        rintro ⟨-, -, h3⟩
        exact hpend h3
    refine ⟨?_, ?_⟩
    · rw [pending_claims, hflat]
      rfl
    · rw [pendingRuleActive, pending_claims, hflat]
      rfl

/-- C10 witness: in `exDB10` the only claim is pending ("PENDING") with a
null `receiver_id`: it contributes no row, and since every pending claim
there has a null receiver, rule 3 is inactive. -/
theorem pending_alert_requires_receiver_witness :
    pendingRowsOfClaim exDB10 exClaimNullRecv = [] ∧
    ((∀ c' ∈ exDB10.claims, lowerOpt c'.status = some "pending" → c'.receiver_id = none) →
      pending_claims exDB10 = [] ∧ pendingRuleActive exDB10 = false) :=
  pending_alert_requires_receiver exDB10 exClaimNullRecv (by decide) rfl
